import Mathlib

/-!
Shallow embedding of the Atomix leader-election client
(`vendor/github.com/atomix/atomix-go-client/pkg/client/election/election.go`).

Go conventions are translated as follows: `uint64` fields become `Nat`
(none of the verified properties depend on 64-bit wraparound), a Go
`error` becomes `Except String`, a `(*T, error)` pair becomes
`Option T × Option String` or `Except String T`, and gRPC calls become
function parameters `request → Except String response` so that an
operation can be evaluated against an arbitrary transport outcome.
The `session` and `util` packages are not part of this repository's
sources; their operations are modelled from the spec (each such
definition carries a `Modelled from the spec:` doc comment).
-/

/-- A per-stream header entry `(streamId, offset)` attached to session
headers.  Modelled from the spec: `streams: set of (streamId, currentOffset)`. -/
structure SessionStreamHeader where
  streamId : Nat
  offset : Nat
deriving DecidableEq, Repr

/-- The session header carried by every request and response.
Modelled from the spec: `{ sessionId, sequenceNumber, lastIndex, streams }`. -/
structure SessionHeader where
  sessionId : Nat
  sequenceNumber : Nat
  lastIndex : Nat
  streams : List SessionStreamHeader
deriving DecidableEq, Repr

/-- The mutable session-header store.  Modelled from the spec: one header
instance per open session, mutated only via merge-on-response. -/
structure SessionState where
  sessionId : Nat
  sequenceNumber : Nat
  lastIndex : Nat
  streams : List SessionStreamHeader
deriving DecidableEq, Repr

/-- Modelled from the spec: `currentHeader()` returns the header without
mutation, for read-only calls (the Go `session.GetHeader`). -/
def SessionState.getHeader (s : SessionState) : SessionHeader :=
  { sessionId := s.sessionId
    sequenceNumber := s.sequenceNumber
    lastIndex := s.lastIndex
    streams := s.streams }

/-- Modelled from the spec: `nextHeader()` returns a header with
`sequenceNumber` advanced by one, used immediately before issuing a
mutating request (the Go `session.NextHeader`). -/
def SessionState.nextHeader (s : SessionState) : SessionHeader × SessionState :=
  let s' : SessionState := { s with sequenceNumber := s.sequenceNumber + 1 }
  (s'.getHeader, s')

/-- Modelled from the spec: merge a response stream entry, taking the max
recorded offset per stream id. -/
def mergeStream (recorded : List SessionStreamHeader) (h : SessionStreamHeader) :
    List SessionStreamHeader :=
  match recorded with
  | [] => [h]
  | r :: rest =>
    if r.streamId = h.streamId then
      { r with offset := max r.offset h.offset } :: rest
    else
      r :: mergeStream rest h

/-- Modelled from the spec: `updateHeader(responseHeader)` merges
`lastIndex` (take max) and each `(streamId, offset)` pair (take max per
stream) into the store (the Go `session.UpdateHeader`). -/
def SessionState.updateHeader (s : SessionState) (h : SessionHeader) : SessionState :=
  { s with
    lastIndex := max s.lastIndex h.lastIndex
    streams := h.streams.foldl mergeStream s.streams }

/-- A primitive name (`primitive.Name`); only the `name` component is used
by the election client (for partition routing). -/
structure Name where
  name : String
deriving DecidableEq, Repr

/-- A term snapshot, from the source `Term` struct. -/
structure Term where
  term : Nat
  leader : String
  candidates : List String
deriving DecidableEq, Repr

/-- The source constant `EVENT_CHANGED ElectionEventType = "changed"`. -/
def EVENT_CHANGED : String := "changed"

/-- An election event, from the source `ElectionEvent` struct. -/
structure ElectionEvent where
  eventType : String
  term : Term
deriving DecidableEq, Repr

/-- The Go standard base64 alphabet used by `base64.StdEncoding`. -/
def base64Alphabet : String :=
  "ABCDEFGHIJKLMNOPQRSTUVWXYZabcdefghijklmnopqrstuvwxyz0123456789+/"

/-- Index into the base64 alphabet. -/
def base64Char (i : Nat) : Char :=
  base64Alphabet.toList.getD i 'A'

/-- Standard base64 of a byte list (bytes as `Nat < 256`), three bytes per
group with `'='` padding, as `base64.StdEncoding.EncodeToString` does. -/
def base64EncodeChunks : List Nat → List Char
  | [] => []
  | [b0] =>
    [base64Char (b0 / 4), base64Char (b0 % 4 * 16), '=', '=']
  | [b0, b1] =>
    [base64Char (b0 / 4), base64Char (b0 % 4 * 16 + b1 / 16),
     base64Char (b1 % 16 * 4), '=']
  | b0 :: b1 :: b2 :: rest =>
    base64Char (b0 / 4) :: base64Char (b0 % 4 * 16 + b1 / 16) ::
      base64Char (b1 % 16 * 4 + b2 / 64) :: base64Char (b2 % 64) ::
      base64EncodeChunks rest

/-- `base64.StdEncoding.EncodeToString`. -/
def base64Encode (bs : List Nat) : String :=
  String.mk (base64EncodeChunks bs)

/-- Modelled from the spec: `util.GetPartitionIndex` is a stable hash of
the primitive name modulo the partition count, failing when the count is
not positive (`InvalidConfiguration`). -/
def nameHash (s : String) : Nat :=
  s.toList.foldl (fun a c => (a * 31 + c.toNat) % 2 ^ 32) 0

/-- Modelled from the spec: partition routing (`util.GetPartitionIndex`). -/
def getPartitionIndex (name : String) (n : Nat) : Except String Nat :=
  if n = 0 then Except.error "invalid partition configuration"
  else Except.ok (nameHash name % n)

/-- The client state built by `New`: primitive name, candidate id, session. -/
structure ElectionState where
  name : Name
  id : String
  session : SessionState
deriving DecidableEq, Repr

/-- `New`: resolve the partition index, open a session (its outcome is the
`sessionNew` parameter, since `session.New` performs I/O), then generate
the candidate id as the base64 encoding of the node id
(`uuid.NodeID()`, passed in as `nodeId` since it reads ambient host state). -/
def New (name : Name) (numPartitions : Nat)
    (sessionNew : Except String SessionState) (nodeId : List Nat) :
    Except String ElectionState :=
  match getPartitionIndex name.name numPartitions with
  | Except.error e => Except.error e
  | Except.ok _ =>
    match sessionNew with
    | Except.error e => Except.error e
    | Except.ok sess =>
      Except.ok { name := name, id := base64Encode nodeId, session := sess }

/-- `pb.GetLeadershipRequest`. -/
structure GetLeadershipRequest where
  header : SessionHeader
deriving DecidableEq, Repr

/-- `pb.GetLeadershipResponse`. -/
structure GetLeadershipResponse where
  header : SessionHeader
  term : Nat
  leader : String
  candidates : List String
deriving DecidableEq, Repr

/-- `pb.EnterRequest`. -/
structure EnterRequest where
  header : SessionHeader
  candidateId : String
deriving DecidableEq, Repr

/-- `pb.EnterResponse`. -/
structure EnterResponse where
  header : SessionHeader
  term : Nat
  leader : String
  candidates : List String
deriving DecidableEq, Repr

/-- `pb.WithdrawRequest`. -/
structure WithdrawRequest where
  header : SessionHeader
  candidateId : String
deriving DecidableEq, Repr

/-- `pb.WithdrawResponse` — carries only a header, no term. -/
structure WithdrawResponse where
  header : SessionHeader
deriving DecidableEq, Repr

/-- `pb.AnointRequest`. -/
structure AnointRequest where
  header : SessionHeader
  candidateId : String
deriving DecidableEq, Repr

/-- `pb.AnointResponse`. -/
structure AnointResponse where
  header : SessionHeader
  succeeded : Bool
deriving DecidableEq, Repr

/-- `pb.PromoteRequest`. -/
structure PromoteRequest where
  header : SessionHeader
  candidateId : String
deriving DecidableEq, Repr

/-- `pb.PromoteResponse`. -/
structure PromoteResponse where
  header : SessionHeader
  succeeded : Bool
deriving DecidableEq, Repr

/-- `pb.EvictRequest`. -/
structure EvictRequest where
  header : SessionHeader
  candidateId : String
deriving DecidableEq, Repr

/-- `pb.EvictResponse`. -/
structure EvictResponse where
  header : SessionHeader
  succeeded : Bool
deriving DecidableEq, Repr

/-- `pb.EventRequest` (the `Events` subscribe request). -/
structure EventRequest where
  header : SessionHeader
deriving DecidableEq, Repr

/-- One message of the `Events` server stream (`pb.EventResponse`). -/
structure EventResponse where
  header : SessionHeader
  term : Nat
  leader : String
  candidates : List String
deriving DecidableEq, Repr

/-- The success payload of an election operation, mirroring the Go return
types: `GetTerm`/`Enter` return a `*Term`, `Anoint`/`Promote`/`Evict`
return a `bool`, and `Leave` returns nothing beyond a nil error. -/
inductive ElectionOutput where
  | term (t : Term) : ElectionOutput
  | flag (succeeded : Bool) : ElectionOutput
  | unitResult : ElectionOutput
deriving DecidableEq, Repr

/-- Project the term, if any, out of an operation's success payload. -/
def ElectionOutput.termOf : ElectionOutput → Option Term
  | ElectionOutput.term t => some t
  | ElectionOutput.flag _ => none
  | ElectionOutput.unitResult => none

namespace election

/-- `election.Id`: returns the stored candidate id. -/
def Id (e : ElectionState) : String :=
  e.id

/-- The request built by `election.GetTerm` (source lines 88–90): the
current header, with no sequence-number increment. -/
def getLeadershipRequest (e : ElectionState) : GetLeadershipRequest :=
  { header := e.session.getHeader }

/-- `election.GetTerm`: send the current header, surface any RPC error
unchanged, otherwise merge the response header and return the term. -/
def GetTerm (e : ElectionState)
    (rpc : GetLeadershipRequest → Except String GetLeadershipResponse) :
    Except String ElectionOutput × ElectionState :=
  let request := getLeadershipRequest e
  match rpc request with
  | Except.error err => (Except.error err, e)
  | Except.ok response =>
    (Except.ok (ElectionOutput.term
      { term := response.term
        leader := response.leader
        candidates := response.candidates }),
     { e with session := e.session.updateHeader response.header })

/-- The request built by `election.Enter` (source lines 106–109): the next
header (sequence number advanced) and the client's own candidate id;
also returns the session state after the increment. -/
def enterRequest (e : ElectionState) : EnterRequest × SessionState :=
  let (h, s) := e.session.nextHeader
  ({ header := h, candidateId := e.id }, s)

/-- `election.Enter`. -/
def Enter (e : ElectionState)
    (rpc : EnterRequest → Except String EnterResponse) :
    Except String ElectionOutput × ElectionState :=
  let (request, s) := enterRequest e
  match rpc request with
  | Except.error err => (Except.error err, { e with session := s })
  | Except.ok response =>
    (Except.ok (ElectionOutput.term
      { term := response.term
        leader := response.leader
        candidates := response.candidates }),
     { e with session := s.updateHeader response.header })

/-- The request built by `election.Leave` (source lines 125–128). -/
def withdrawRequest (e : ElectionState) : WithdrawRequest × SessionState :=
  let (h, s) := e.session.nextHeader
  ({ header := h, candidateId := e.id }, s)

/-- `election.Leave`: withdraw the own candidate id; a successful result
carries no term (the Go method returns only a nil error). -/
def Leave (e : ElectionState)
    (rpc : WithdrawRequest → Except String WithdrawResponse) :
    Except String ElectionOutput × ElectionState :=
  let (request, s) := withdrawRequest e
  match rpc request with
  | Except.error err => (Except.error err, { e with session := s })
  | Except.ok response =>
    (Except.ok ElectionOutput.unitResult,
     { e with session := s.updateHeader response.header })

/-- The request built by `election.Anoint` (source lines 140–143). -/
def anointRequest (e : ElectionState) (id : String) : AnointRequest × SessionState :=
  let (h, s) := e.session.nextHeader
  ({ header := h, candidateId := id }, s)

/-- `election.Anoint`: returns the server's `succeeded` flag. -/
def Anoint (e : ElectionState) (id : String)
    (rpc : AnointRequest → Except String AnointResponse) :
    Except String ElectionOutput × ElectionState :=
  let (request, s) := anointRequest e id
  match rpc request with
  | Except.error err => (Except.error err, { e with session := s })
  | Except.ok response =>
    (Except.ok (ElectionOutput.flag response.succeeded),
     { e with session := s.updateHeader response.header })

/-- The request built by `election.Promote` (source lines 155–158). -/
def promoteRequest (e : ElectionState) (id : String) : PromoteRequest × SessionState :=
  let (h, s) := e.session.nextHeader
  ({ header := h, candidateId := id }, s)

/-- `election.Promote`: returns the server's `succeeded` flag. -/
def Promote (e : ElectionState) (id : String)
    (rpc : PromoteRequest → Except String PromoteResponse) :
    Except String ElectionOutput × ElectionState :=
  let (request, s) := promoteRequest e id
  match rpc request with
  | Except.error err => (Except.error err, { e with session := s })
  | Except.ok response =>
    (Except.ok (ElectionOutput.flag response.succeeded),
     { e with session := s.updateHeader response.header })

/-- The request built by `election.Evict` (source lines 170–173). -/
def evictRequest (e : ElectionState) (id : String) : EvictRequest × SessionState :=
  let (h, s) := e.session.nextHeader
  ({ header := h, candidateId := id }, s)

/-- `election.Evict`: returns the server's `succeeded` flag. -/
def Evict (e : ElectionState) (id : String)
    (rpc : EvictRequest → Except String EvictResponse) :
    Except String ElectionOutput × ElectionState :=
  let (request, s) := evictRequest e id
  match rpc request with
  | Except.error err => (Except.error err, { e with session := s })
  | Except.ok response =>
    (Except.ok (ElectionOutput.flag response.succeeded),
     { e with session := s.updateHeader response.header })

/-- The subscribe request built by `election.Listen` (source lines
185–187): built from `NextHeader`, like the mutating operations. -/
def eventRequest (e : ElectionState) : EventRequest × SessionState :=
  let (h, s) := e.session.nextHeader
  ({ header := h }, s)

end election

/-- The outcome of one `events.Recv()` call: the Go pair
`(*pb.EventResponse, error)` with `io.EOF` singled out.  On a non-EOF
error the response pointer may be nil (`Option.none`), which is what gRPC
streams actually return alongside a non-nil error. -/
inductive RecvOut where
  | eof : RecvOut
  | ok (resp : EventResponse) : RecvOut
  | err (msg : String) (resp : Option EventResponse) : RecvOut
deriving DecidableEq, Repr

/-- An observable effect of the listener goroutine: a send on the
caller-supplied channel, a `glog.Error` call, closing the caller's
channel (the Go code never does this, the constructor exists so that its
absence is a statement about the code), or a runtime panic from
dereferencing a nil response. -/
inductive ListenAction where
  | send (event : ElectionEvent) : ListenAction
  | logErr (msg : String) : ListenAction
  | closeChan : ListenAction
  | panicked : ListenAction
deriving DecidableEq, Repr

/-- The event the listener builds from a stream response (source lines
206–213 and 219–226). -/
def mkEvent (r : EventResponse) : ElectionEvent :=
  { eventType := EVENT_CHANGED
    term := { term := r.term, leader := r.leader, candidates := r.candidates } }

/-- The body of the listener loop after the error checks (source lines
204–228): with no stream headers, send the event immediately; otherwise
wait on the first stream header — `wait h = true` models the
`WaitStream` channel yielding `ok = true`, `false` models a closed
(cancelled) wait — and send only on a positive resolution.  A nil
response (`Option.none`) panics at `response.Header` (source line 205). -/
def processMsg (wait : SessionStreamHeader → Bool) :
    Option EventResponse → List ListenAction
  | Option.none => [ListenAction.panicked]
  | Option.some r =>
    match r.header.streams with
    | [] => [ListenAction.send (mkEvent r)]
    | s :: _ => if wait s then [ListenAction.send (mkEvent r)] else []

/-- The listener goroutine (source lines 193–230) run over a finite prefix
of `Recv` outcomes: `io.EOF` breaks the loop; any other error is logged
and then — with no break — the loop still reads `response.Header.Streams`,
panicking when the response is nil and otherwise processing the failed
response like a normal message. -/
def listenLoop (wait : SessionStreamHeader → Bool) : List RecvOut → List ListenAction
  | [] => []
  | RecvOut.eof :: _ => []
  | RecvOut.ok r :: rest =>
    processMsg wait (Option.some r) ++ listenLoop wait rest
  | RecvOut.err msg Option.none :: _ =>
    ListenAction.logErr msg :: processMsg wait Option.none
  | RecvOut.err msg (Option.some r) :: rest =>
    ListenAction.logErr msg :: (processMsg wait (Option.some r) ++ listenLoop wait rest)

namespace election

/-- `election.Listen`: send the subscribe request built from `NextHeader`;
on failure surface the error; on success the background goroutine's
trace over the given `Recv` prefix is `listenLoop`. -/
def Listen (e : ElectionState)
    (rpc : EventRequest → Except String (List RecvOut))
    (wait : SessionStreamHeader → Bool) :
    Except String (List ListenAction) × ElectionState :=
  let (request, s) := eventRequest e
  match rpc request with
  | Except.error err => (Except.error err, { e with session := s })
  | Except.ok recvs =>
    (Except.ok (listenLoop wait recvs), { e with session := s })

end election

/-- Modelled from the spec: server-side election state used to derive
responses — a term counter, the current leader, the ordered candidate
list and the header the server attaches to its response. -/
structure ServerState where
  term : Nat
  leader : String
  candidates : List String
  header : SessionHeader
deriving DecidableEq, Repr

/-- Modelled from the spec: the server's anoint handler — `succeeded =
false` when the target id is not currently a candidate, `true` when it
is (anoint forces a present id to leader). -/
def serverAnoint (st : ServerState) (id : String) : AnointResponse :=
  { header := st.header, succeeded := st.candidates.contains id }

/-- Modelled from the spec: the server's promote handler — `succeeded =
false` when the target id is not currently a candidate. -/
def serverPromote (st : ServerState) (id : String) : PromoteResponse :=
  { header := st.header, succeeded := st.candidates.contains id }

/-- Modelled from the spec: the server's evict handler — `succeeded =
false` when the target id is not currently a candidate. -/
def serverEvict (st : ServerState) (id : String) : EvictResponse :=
  { header := st.header, succeeded := st.candidates.contains id }

/-- Modelled from the spec: the server's withdraw handler — withdrawing a
candidate that is not present is not an error, simply a no-op term
update; the response carries only a header. -/
def serverWithdraw (st : ServerState) (_id : String) : WithdrawResponse :=
  { header := st.header }

/-- A character is printable ASCII. -/
def printableChar (c : Char) : Prop :=
  32 < c.toNat ∧ c.toNat < 127

instance (c : Char) : Decidable (printableChar c) := by
  unfold printableChar
  infer_instance

/-- Sample session state used by concrete witnesses. -/
def sampleSession : SessionState :=
  { sessionId := 1, sequenceNumber := 5, lastIndex := 10, streams := [] }

/-- Sample response header used by concrete witnesses. -/
def sampleHeader : SessionHeader :=
  { sessionId := 1, sequenceNumber := 6, lastIndex := 12, streams := [] }

/-- Sample client state used by concrete witnesses. -/
def sampleElection : ElectionState :=
  { name := { name := "foo" }, id := "AAECAwQF", session := sampleSession }

/-- Sample stream message carrying no stream-offset metadata. -/
def sampleResponse : EventResponse :=
  { header := { sessionId := 1, sequenceNumber := 0, lastIndex := 3, streams := [] }
    term := 1, leader := "a", candidates := ["a"] }

/-- Sample server-side election state used by concrete witnesses. -/
def sampleServer : ServerState :=
  { term := 1, leader := "a", candidates := ["a", "b"], header := sampleHeader }

/-- Every character of the base64 alphabet, and the default, is printable. -/
theorem base64Char_printable (i : Nat) : printableChar (base64Char i) := by
  unfold base64Char
  rw [List.getD_eq_getElem?_getD]
  rcases h : base64Alphabet.toList[i]? with _ | c
  · decide
  · have hm : c ∈ base64Alphabet.toList := List.getElem?_mem h
    exact (by decide : ∀ x ∈ base64Alphabet.toList, printableChar x) c hm

/-- Every character emitted by the base64 encoder is printable. -/
theorem base64EncodeChunks_printable :
    ∀ bs : List Nat, ∀ c ∈ base64EncodeChunks bs, printableChar c
  | [] => by simp [base64EncodeChunks]
  | [b0] => by
    intro c hc
    simp only [base64EncodeChunks, List.mem_cons, List.not_mem_nil, or_false] at hc
    rcases hc with h | h | h | h <;> subst h
    · exact base64Char_printable _
    · exact base64Char_printable _
    · decide
    · decide
  | [b0, b1] => by
    intro c hc
    simp only [base64EncodeChunks, List.mem_cons, List.not_mem_nil, or_false] at hc
    rcases hc with h | h | h | h <;> subst h
    · exact base64Char_printable _
    · exact base64Char_printable _
    · exact base64Char_printable _
    · decide
  | b0 :: b1 :: b2 :: rest => by
    intro c hc
    simp only [base64EncodeChunks, List.mem_cons] at hc
    rcases hc with h | h | h | h | h
    · subst h; exact base64Char_printable _
    · subst h; exact base64Char_printable _
    · subst h; exact base64Char_printable _
    · subst h; exact base64Char_printable _
    · exact base64EncodeChunks_printable rest c h

/-- Inversion for `New`: a successfully constructed client's candidate id
is the base64 encoding of the node id. -/
theorem New_ok_id {name : Name} {p : Nat} {sNew : Except String SessionState}
    {nodeId : List Nat} {e : ElectionState}
    (h : New name p sNew nodeId = Except.ok e) : e.id = base64Encode nodeId := by
  unfold New at h
  rcases hp : getPartitionIndex name.name p with e' | i <;> rw [hp] at h
  · exact absurd h (by simp)
  · rcases sNew with e' | sess
    · exact absurd h (by simp)
    · simp only [Except.ok.injEq] at h
      rw [← h]

/-- C2: every mutating operation (Enter, Leave, Anoint, Promote, Evict,
and Listen's subscribe request) builds its request header via the
session's `NextHeader`, carrying and leaving behind a sequence number
exactly one above the current one, while the read-only `GetTerm` builds
its request from the current header without incrementing. -/
theorem C2_mutating_ops_advance_sequence (e : ElectionState) (id : String) :
    (election.enterRequest e).1.header.sequenceNumber = e.session.sequenceNumber + 1 ∧
    (election.withdrawRequest e).1.header.sequenceNumber = e.session.sequenceNumber + 1 ∧
    (election.anointRequest e id).1.header.sequenceNumber = e.session.sequenceNumber + 1 ∧
    (election.promoteRequest e id).1.header.sequenceNumber = e.session.sequenceNumber + 1 ∧
    (election.evictRequest e id).1.header.sequenceNumber = e.session.sequenceNumber + 1 ∧
    (election.eventRequest e).1.header.sequenceNumber = e.session.sequenceNumber + 1 ∧
    (election.enterRequest e).2.sequenceNumber = e.session.sequenceNumber + 1 ∧
    (election.withdrawRequest e).2.sequenceNumber = e.session.sequenceNumber + 1 ∧
    (election.anointRequest e id).2.sequenceNumber = e.session.sequenceNumber + 1 ∧
    (election.promoteRequest e id).2.sequenceNumber = e.session.sequenceNumber + 1 ∧
    (election.evictRequest e id).2.sequenceNumber = e.session.sequenceNumber + 1 ∧
    (election.eventRequest e).2.sequenceNumber = e.session.sequenceNumber + 1 ∧
    (election.getLeadershipRequest e).header.sequenceNumber = e.session.sequenceNumber :=
  ⟨rfl, rfl, rfl, rfl, rfl, rfl, rfl, rfl, rfl, rfl, rfl, rfl, rfl⟩

/-- C10: the candidate id produced by `New` depends only on the node id,
not on the primitive name, the partition count, or the session: any two
successfully constructed instances sharing a node id report equal ids. -/
theorem C10_same_process_same_id (n₁ n₂ : Name) (p₁ p₂ : Nat)
    (s₁ s₂ : Except String SessionState) (nodeId : List Nat)
    (e₁ e₂ : ElectionState)
    (h₁ : New n₁ p₁ s₁ nodeId = Except.ok e₁)
    (h₂ : New n₂ p₂ s₂ nodeId = Except.ok e₂) :
    election.Id e₁ = election.Id e₂ := by
  show e₁.id = e₂.id
  rw [New_ok_id h₁, New_ok_id h₂]

/-- Witness for C10 at concrete inputs: two constructions with different
names, partition counts and sessions yield the same candidate id. -/
theorem C10_same_process_same_id_witness :
    election.Id { name := { name := "foo" }, id := base64Encode [0, 1, 2, 3, 4, 5],
                  session := sampleSession }
      = election.Id { name := { name := "bar" }, id := base64Encode [0, 1, 2, 3, 4, 5],
                      session := { sessionId := 7, sequenceNumber := 0, lastIndex := 0,
                                   streams := [] } } :=
  C10_same_process_same_id { name := "foo" } { name := "bar" } 1 3
    (Except.ok sampleSession)
    (Except.ok { sessionId := 7, sequenceNumber := 0, lastIndex := 0, streams := [] })
    [0, 1, 2, 3, 4, 5] _ _ (by rfl) (by rfl)

/-- C1: for a message received on the event stream, if its header's stream
list is empty the CHANGED event is delivered to the caller's channel
immediately; if it carries a stream offset, the event is delivered only
after the wait on that stream resolves positively; if the wait resolves
as cancelled the event is dropped silently — nothing is emitted for that
message and the loop moves on. -/
theorem C1_listen_delivery (wait : SessionStreamHeader → Bool)
    (r : EventResponse) (rest : List RecvOut) :
    (r.header.streams = [] →
      listenLoop wait (RecvOut.ok r :: rest)
        = ListenAction.send (mkEvent r) :: listenLoop wait rest) ∧
    (∀ s ss, r.header.streams = s :: ss → wait s = true →
      listenLoop wait (RecvOut.ok r :: rest)
        = ListenAction.send (mkEvent r) :: listenLoop wait rest) ∧
    (∀ s ss, r.header.streams = s :: ss → wait s = false →
      listenLoop wait (RecvOut.ok r :: rest) = listenLoop wait rest) := by
  refine ⟨?_, ?_, ?_⟩
  · intro h
    simp [listenLoop, processMsg, h]
  · intro s ss h hw
    simp [listenLoop, processMsg, h, hw]
  · intro s ss h hw
    simp [listenLoop, processMsg, h, hw]

/-- Witness for C1 at concrete inputs: a message without stream metadata
is delivered immediately, and a message whose stream wait is cancelled
is dropped. -/
theorem C1_listen_delivery_witness :
    listenLoop (fun _ => false) [RecvOut.ok sampleResponse]
      = [ListenAction.send (mkEvent sampleResponse)] := by
  have h := (C1_listen_delivery (fun _ => false) sampleResponse []).1 (by rfl)
  simpa [listenLoop] using h

/-- C8: the listener loop never closes the caller-supplied channel — no
trace of the background task, over any prefix of receive outcomes and
any wait behaviour, contains the channel-close action. -/
theorem C8_never_closes_channel (wait : SessionStreamHeader → Bool) :
    ∀ recvs : List RecvOut, ListenAction.closeChan ∉ listenLoop wait recvs := by
  have hp : ∀ o : Option EventResponse, ListenAction.closeChan ∉ processMsg wait o := by
    intro o
    rcases o with _ | r
    · simp [processMsg]
    · rcases h : r.header.streams with _ | ⟨s, ss⟩
      · simp [processMsg, h]
      · rcases hw : wait s with _ | _ <;> simp [processMsg, h, hw]
  intro recvs
  induction recvs with
  | nil => simp [listenLoop]
  | cons head rest ih =>
    rcases head with _ | r | ⟨msg, resp⟩
    · simp [listenLoop]
    · simp only [listenLoop, List.mem_append, List.mem_cons]
      rintro (h | h)
      · exact hp (Option.some r) h
      · exact ih h
    · rcases resp with _ | r
      · simp [listenLoop, processMsg]
      · simp only [listenLoop, List.mem_cons, List.mem_append]
        rintro (h | h | h)
        · exact absurd h (by simp)
        · exact hp (Option.some r) h
        · exact ih h

/-- C9: when `Recv` fails with a non-EOF error the loop body still reads
`response.Header.Streams` for that iteration: if the failed receive came
with a response (here one with no stream metadata) the loop builds and
delivers an event from it, and when the response is nil — as gRPC
guarantees on error — the unguarded access panics. -/
theorem C9_error_iteration_unguarded (wait : SessionStreamHeader → Bool)
    (msg : String) (rest : List RecvOut) :
    (∀ r : EventResponse, r.header.streams = [] →
      listenLoop wait (RecvOut.err msg (Option.some r) :: rest)
        = ListenAction.logErr msg :: ListenAction.send (mkEvent r)
            :: listenLoop wait rest) ∧
    listenLoop wait (RecvOut.err msg Option.none :: rest)
      = [ListenAction.logErr msg, ListenAction.panicked] := by
  constructor
  · intro r h
    simp [listenLoop, processMsg, h]
  · simp [listenLoop, processMsg]

/-- Witness for C9 at concrete inputs: an errored receive carrying a
response still results in a delivered event. -/
theorem C9_error_iteration_unguarded_witness :
    listenLoop (fun _ => true) [RecvOut.err "recv failed" (Option.some sampleResponse)]
      = [ListenAction.logErr "recv failed", ListenAction.send (mkEvent sampleResponse)] := by
  have h := (C9_error_iteration_unguarded (fun _ => true) "recv failed" []).1
    sampleResponse (by rfl)
  simpa [listenLoop] using h

/-- C3 (code bug): at the failing input — a non-EOF receive error, for
which gRPC yields a nil response — the loop logs the failure but does
not stop: lacking a break, it dereferences the nil response and panics,
so the goroutine dies by crash rather than by a clean transition to a
terminal ERROR state, and a subsequent stream message is never reached. -/
theorem C3_error_logs_then_panics :
    listenLoop (fun _ => true)
        [RecvOut.err "recv failed" Option.none, RecvOut.ok sampleResponse]
      = [ListenAction.logErr "recv failed", ListenAction.panicked] := by
  simp [listenLoop, processMsg]

/-- C4: for every operation, when the underlying RPC fails the operation
returns that error unchanged and merges no response header — the
post-state is exactly the pre-state (for the read-only `GetTerm`) or the
pre-state with only the `NextHeader` sequence increment (for the
mutating operations); `UpdateHeader` is applied exactly when the RPC
succeeds, in which case the post-state is the merge of the response
header. -/
theorem C4_rpc_errors_surfaced (e : ElectionState) (id : String) (err : String) :
    (∀ rpc, rpc (election.getLeadershipRequest e) = Except.error err →
      election.GetTerm e rpc = (Except.error err, e)) ∧
    (∀ rpc resp, rpc (election.getLeadershipRequest e) = Except.ok resp →
      (election.GetTerm e rpc).2
        = { e with session := e.session.updateHeader resp.header }) ∧
    (∀ rpc, rpc (election.enterRequest e).1 = Except.error err →
      election.Enter e rpc
        = (Except.error err, { e with session := (election.enterRequest e).2 })) ∧
    (∀ rpc resp, rpc (election.enterRequest e).1 = Except.ok resp →
      (election.Enter e rpc).2
        = { e with session := (election.enterRequest e).2.updateHeader resp.header }) ∧
    (∀ rpc, rpc (election.withdrawRequest e).1 = Except.error err →
      election.Leave e rpc
        = (Except.error err, { e with session := (election.withdrawRequest e).2 })) ∧
    (∀ rpc resp, rpc (election.withdrawRequest e).1 = Except.ok resp →
      (election.Leave e rpc).2
        = { e with session := (election.withdrawRequest e).2.updateHeader resp.header }) ∧
    (∀ rpc, rpc (election.anointRequest e id).1 = Except.error err →
      election.Anoint e id rpc
        = (Except.error err, { e with session := (election.anointRequest e id).2 })) ∧
    (∀ rpc resp, rpc (election.anointRequest e id).1 = Except.ok resp →
      (election.Anoint e id rpc).2
        = { e with session := (election.anointRequest e id).2.updateHeader resp.header }) ∧
    (∀ rpc, rpc (election.promoteRequest e id).1 = Except.error err →
      election.Promote e id rpc
        = (Except.error err, { e with session := (election.promoteRequest e id).2 })) ∧
    (∀ rpc resp, rpc (election.promoteRequest e id).1 = Except.ok resp →
      (election.Promote e id rpc).2
        = { e with session := (election.promoteRequest e id).2.updateHeader resp.header }) ∧
    (∀ rpc, rpc (election.evictRequest e id).1 = Except.error err →
      election.Evict e id rpc
        = (Except.error err, { e with session := (election.evictRequest e id).2 })) ∧
    (∀ rpc resp, rpc (election.evictRequest e id).1 = Except.ok resp →
      (election.Evict e id rpc).2
        = { e with session := (election.evictRequest e id).2.updateHeader resp.header }) := by
  refine ⟨?_, ?_, ?_, ?_, ?_, ?_, ?_, ?_, ?_, ?_, ?_, ?_⟩ <;>
    first
    | (intro rpc h
       simp only [election.GetTerm, election.getLeadershipRequest, election.Enter,
         election.enterRequest, election.Leave, election.withdrawRequest,
         election.Anoint, election.anointRequest, election.Promote,
         election.promoteRequest, election.Evict, election.evictRequest,
         SessionState.nextHeader, SessionState.getHeader] at h ⊢
       rw [h])
    | (intro rpc resp h
       simp only [election.GetTerm, election.getLeadershipRequest, election.Enter,
         election.enterRequest, election.Leave, election.withdrawRequest,
         election.Anoint, election.anointRequest, election.Promote,
         election.promoteRequest, election.Evict, election.evictRequest,
         SessionState.nextHeader, SessionState.getHeader] at h ⊢
       rw [h])

/-- Witness for C4 at concrete inputs: a failing `GetTerm` RPC surfaces
the error and leaves the state untouched. -/
theorem C4_rpc_errors_surfaced_witness :
    election.GetTerm sampleElection (fun _ => Except.error "transport down")
      = (Except.error "transport down", sampleElection) :=
  (C4_rpc_errors_surfaced sampleElection "b" "transport down").1
    (fun _ => Except.error "transport down") rfl

/-- C5: `Anoint`, `Promote` and `Evict` return the server's boolean
`succeeded` flag as a normal result and merge the response header; with
the spec-modelled server handlers, a target id that is not currently a
candidate yields `succeeded = false` rather than an error. -/
theorem C5_admin_ops_return_flag (e : ElectionState) (st : ServerState) (id : String) :
    (∀ rpc resp, rpc (election.anointRequest e id).1 = Except.ok resp →
      election.Anoint e id rpc
        = (Except.ok (ElectionOutput.flag resp.succeeded),
           { e with session := (election.anointRequest e id).2.updateHeader resp.header })) ∧
    (∀ rpc resp, rpc (election.promoteRequest e id).1 = Except.ok resp →
      election.Promote e id rpc
        = (Except.ok (ElectionOutput.flag resp.succeeded),
           { e with session := (election.promoteRequest e id).2.updateHeader resp.header })) ∧
    (∀ rpc resp, rpc (election.evictRequest e id).1 = Except.ok resp →
      election.Evict e id rpc
        = (Except.ok (ElectionOutput.flag resp.succeeded),
           { e with session := (election.evictRequest e id).2.updateHeader resp.header })) ∧
    (st.candidates.contains id = false →
      (election.Anoint e id (fun req => Except.ok (serverAnoint st req.candidateId))).1
        = Except.ok (ElectionOutput.flag false)) ∧
    (st.candidates.contains id = false →
      (election.Promote e id (fun req => Except.ok (serverPromote st req.candidateId))).1
        = Except.ok (ElectionOutput.flag false)) ∧
    (st.candidates.contains id = false →
      (election.Evict e id (fun req => Except.ok (serverEvict st req.candidateId))).1
        = Except.ok (ElectionOutput.flag false)) := by
  refine ⟨?_, ?_, ?_, ?_, ?_, ?_⟩
  · intro rpc resp h
    simp only [election.Anoint, election.anointRequest, SessionState.nextHeader,
      SessionState.getHeader] at h ⊢
    rw [h]
  · intro rpc resp h
    simp only [election.Promote, election.promoteRequest, SessionState.nextHeader,
      SessionState.getHeader] at h ⊢
    rw [h]
  · intro rpc resp h
    simp only [election.Evict, election.evictRequest, SessionState.nextHeader,
      SessionState.getHeader] at h ⊢
    rw [h]
  · intro h
    have h' : id ∉ st.candidates := by simpa using h
    simp [election.Anoint, election.anointRequest, SessionState.nextHeader,
      SessionState.getHeader, serverAnoint, h']
  · intro h
    have h' : id ∉ st.candidates := by simpa using h
    simp [election.Promote, election.promoteRequest, SessionState.nextHeader,
      SessionState.getHeader, serverPromote, h']
  · intro h
    have h' : id ∉ st.candidates := by simpa using h
    simp [election.Evict, election.evictRequest, SessionState.nextHeader,
      SessionState.getHeader, serverEvict, h']

/-- Witness for C5 at concrete inputs: anointing an id that is not a
candidate returns the normal result `false`. -/
theorem C5_admin_ops_return_flag_witness :
    (election.Anoint sampleElection "zzz"
        (fun req => Except.ok (serverAnoint sampleServer req.candidateId))).1
      = Except.ok (ElectionOutput.flag false) :=
  (C5_admin_ops_return_flag sampleElection sampleServer "zzz").2.2.2.1 (by rfl)

/-- C6 counterexample: `Leave` succeeds, yet its successful result is the
bare unit outcome — it contains no `Term`, contradicting the claim that
leave's successful result includes the resulting Term (the Go method's
only return value is an `error`). -/
theorem C6_leave_returns_no_term_counterexample :
    (election.Leave sampleElection (fun _ => Except.ok { header := sampleHeader })).1
      = Except.ok ElectionOutput.unitResult ∧
    ElectionOutput.termOf ElectionOutput.unitResult = Option.none :=
  ⟨rfl, rfl⟩

/-- C6 (amended): `leave()` invoked while the client's own candidate id is
not among the candidates succeeds without error — the spec-modelled
server treats withdrawal of a non-member as a no-op update whose
response carries only a header — and the successful result carries no
Term: success is indicated solely by the absence of an error. -/
theorem C6_leave_idempotent (e : ElectionState) (st : ServerState)
    (_h : st.candidates.contains e.id = false) :
    election.Leave e (fun req => Except.ok (serverWithdraw st req.candidateId))
      = (Except.ok ElectionOutput.unitResult,
         { e with session := (election.withdrawRequest e).2.updateHeader st.header }) ∧
    ElectionOutput.termOf ElectionOutput.unitResult = Option.none := by
  refine ⟨?_, rfl⟩
  simp only [election.Leave, election.withdrawRequest, SessionState.nextHeader,
    SessionState.getHeader, serverWithdraw]

/-- Witness for C6 at concrete inputs: the sample client's id is not a
candidate on the sample server, and leave still succeeds. -/
theorem C6_leave_idempotent_witness :
    election.Leave sampleElection
        (fun req => Except.ok (serverWithdraw sampleServer req.candidateId))
      = (Except.ok ElectionOutput.unitResult,
         { sampleElection with
           session := (election.withdrawRequest sampleElection).2.updateHeader
             sampleServer.header }) :=
  (C6_leave_idempotent sampleElection sampleServer (by rfl)).1

/-- C7 counterexample: two distinct clients constructed from the same node
id — here with different primitive names — receive the very same
candidate id, so the identity is concurrently reused by two clients,
contradicting the claimed per-client uniqueness. -/
theorem C7_identity_reuse_counterexample :
    New { name := "foo" } 1 (Except.ok sampleSession) [0, 1, 2, 3, 4, 5]
      = Except.ok { name := { name := "foo" }, id := base64Encode [0, 1, 2, 3, 4, 5],
                    session := sampleSession } ∧
    New { name := "bar" } 1 (Except.ok sampleSession) [0, 1, 2, 3, 4, 5]
      = Except.ok { name := { name := "bar" }, id := base64Encode [0, 1, 2, 3, 4, 5],
                    session := sampleSession } ∧
    ({ name := { name := "foo" }, id := base64Encode [0, 1, 2, 3, 4, 5],
       session := sampleSession } : ElectionState)
      ≠ { name := { name := "bar" }, id := base64Encode [0, 1, 2, 3, 4, 5],
          session := sampleSession } ∧
    election.Id { name := { name := "foo" }, id := base64Encode [0, 1, 2, 3, 4, 5],
                  session := sampleSession }
      = election.Id { name := { name := "bar" }, id := base64Encode [0, 1, 2, 3, 4, 5],
                      session := sampleSession } := by
  refine ⟨rfl, rfl, ?_, rfl⟩
  decide

/-- C7 (amended): the candidate id is generated once at construction as
the printable base64 encoding of the node identifier and is returned
unchanged by `Id()` for the lifetime of the instance — no operation
modifies it; but it identifies the node, not the client: clients sharing
a node id share the candidate id, so per-client uniqueness does not
hold. -/
theorem C7_candidate_identity (name : Name) (p : Nat)
    (sNew : Except String SessionState) (nodeId : List Nat) (e : ElectionState)
    (h : New name p sNew nodeId = Except.ok e) :
    election.Id e = base64Encode nodeId ∧
    (∀ c ∈ (election.Id e).toList, printableChar c) ∧
    (∀ rpc, (election.GetTerm e rpc).2.id = e.id) ∧
    (∀ rpc, (election.Enter e rpc).2.id = e.id) ∧
    (∀ rpc, (election.Leave e rpc).2.id = e.id) ∧
    (∀ cid rpc, (election.Anoint e cid rpc).2.id = e.id) ∧
    (∀ cid rpc, (election.Promote e cid rpc).2.id = e.id) ∧
    (∀ cid rpc, (election.Evict e cid rpc).2.id = e.id) ∧
    (∀ rpc wait, (election.Listen e rpc wait).2.id = e.id) := by
  have hid : election.Id e = base64Encode nodeId := New_ok_id h
  refine ⟨hid, ?_, ?_, ?_, ?_, ?_, ?_, ?_, ?_⟩
  · intro c hc
    rw [hid] at hc
    exact base64EncodeChunks_printable nodeId c hc
  · intro rpc
    rcases hr : rpc (election.getLeadershipRequest e) with err | resp <;>
      simp [election.GetTerm, hr]
  · intro rpc
    unfold election.Enter
    split
    split <;> rfl
  · intro rpc
    unfold election.Leave
    split
    split <;> rfl
  · intro cid rpc
    unfold election.Anoint
    split
    split <;> rfl
  · intro cid rpc
    unfold election.Promote
    split
    split <;> rfl
  · intro cid rpc
    unfold election.Evict
    split
    split <;> rfl
  · intro rpc wait
    unfold election.Listen
    split
    split <;> rfl

/-- Witness for C7 at concrete inputs. -/
theorem C7_candidate_identity_witness :
    election.Id { name := { name := "foo" }, id := base64Encode [0, 1, 2, 3, 4, 5],
                  session := sampleSession }
      = base64Encode [0, 1, 2, 3, 4, 5] :=
  (C7_candidate_identity { name := "foo" } 1 (Except.ok sampleSession)
    [0, 1, 2, 3, 4, 5] _ (by rfl)).1
